import Mathlib

/-!
Shallow embedding of the ESP32WebSocketControl protocol engine.

Sources embedded here:
* `lib/ESP32WebSocketLib/ESP32WebSocket.h` (header + implementation):
  the variable registry (`VariableConfig`, `setVariableValueInternal`,
  `sendVariableValueInternal`, `findVariableIndexInternal`), the WebSocket
  event handler (`onWebSocketEvent`: text-frame router, disconnect
  auto-stop, frame-info gating) and `broadcastBinaryData`.
* `src/main.cpp`: the demo application's variable table, its stream
  start/stop callbacks (`application_onStreamStart` /
  `application_onStreamStop`) and the sampling `loop` body.

Modelling conventions:
* JSON numeric values are carried exactly as rationals (`ℚ`); a JSON
  number written with a decimal point is `jfloat`, an integer literal is
  `jint` (this mirrors ArduinoJson's storage classes, where `is<int>()`
  holds only of integer-stored values that fit a 32-bit int while
  `is<float>()` holds of any numeric value).
* C++ `double`/`float` arithmetic on the small in-range values the
  protocol manipulates is exact, so it is modelled by exact `ℚ`
  arithmetic; `uint16_t` / `uint32_t` quantities are reduced mod 2^16 /
  2^32 where they are stored.
* Mutation of the global registry / streaming flags is explicit state
  passing on a `SysState` record; client-addressed `ws.text` sends are
  collected in an output list of `Response`s, binary broadcasts in a
  list of byte chunks.
* The fixed sample array plus fill index `currentBufferIndex` of
  `main.cpp` is represented by the filled prefix `buffer : List
  SensorDataPacket`; the index is its length (slots past the index are
  never read by the program).
-/

/-- JSON value attached to a parsed client message (ArduinoJson
`JsonVariant` as stored after `deserializeJson`). -/
inductive JsonVal where
  | jint : Int → JsonVal
  | jfloat : ℚ → JsonVal
  | jstr : String → JsonVal
  | jnull : JsonVal
deriving DecidableEq

/-- Enum `VarType` from `ESP32WebSocket.h`. -/
inductive VarType where
  | TYPE_INT
  | TYPE_FLOAT
  | TYPE_STRING
deriving DecidableEq

/-- Struct `VariableConfig` from `ESP32WebSocket.h`: one registry entry. -/
structure VariableConfig where
  name : String
  type : VarType
  intValue : Int
  floatValue : ℚ
  stringValue : String
  minVal : ℚ
  maxVal : ℚ
  hasLimits : Bool
deriving DecidableEq

instance : Inhabited VariableConfig :=
  ⟨⟨"", VarType.TYPE_INT, 0, 0, "", 0, 0, false⟩⟩

/-- Truncation toward zero, the effect of the C++ cast `(int)f` on an
in-range floating value. -/
def ratTrunc (q : ℚ) : Int := q.num.tdiv (q.den : Int)

/-- Whether an integer fits in a C++ 32-bit `int`. -/
def intFits (n : Int) : Bool := decide (-2147483648 ≤ n ∧ n < 2147483648)

/-- ArduinoJson `variant.is<int>()`: the value is integer-stored and fits
a 32-bit int. -/
def isJsonInt : JsonVal → Bool
  | JsonVal.jint n => intFits n
  | _ => false

/-- ArduinoJson `variant.is<float>()`: the value is numeric. -/
def isJsonNumeric : JsonVal → Bool
  | JsonVal.jint _ => true
  | JsonVal.jfloat _ => true
  | _ => false

/-- ArduinoJson `variant.is<const char*>() || variant.is<String>()`. -/
def isJsonString : JsonVal → Bool
  | JsonVal.jstr _ => true
  | _ => false

/-- ArduinoJson `variant.as<int>()` on a numeric value (truncating cast
for float-stored values); only reached after a numeric type check. -/
def jsonAsInt : JsonVal → Int
  | JsonVal.jint n => n
  | JsonVal.jfloat q => ratTrunc q
  | _ => 0

/-- ArduinoJson `variant.as<float>()` on a numeric value. -/
def jsonAsRat : JsonVal → ℚ
  | JsonVal.jint n => (n : ℚ)
  | JsonVal.jfloat q => q
  | _ => 0

/-- ArduinoJson `variant.as<String>()` on a string value. -/
def jsonAsString : JsonVal → String
  | JsonVal.jstr s => s
  | _ => ""

/-- Helper loop of `findVariableIndexInternal`: linear scan carrying the
current index. -/
def findVariableIndexAux (name : String) : List VariableConfig → Int → Int
  | [], _ => -1
  | v :: rest, i => if v.name = name then i else findVariableIndexAux name rest (i + 1)

/-- Function `findVariableIndexInternal` (ESP32WebSocket.h, lines
210-218): index of the variable with the given name, `-1` if absent or
the registry is empty/uninitialized. -/
def findVariableIndexInternal (vars : List VariableConfig) (name : String) : Int :=
  if vars.isEmpty then -1 else findVariableIndexAux name vars 0

/-- Function `setVariableValueInternal` (ESP32WebSocket.h, lines
226-296): validate a candidate value against the variable's declared
type and optional `[min, max]` limits; on success return `true` and the
updated registry, on any failure return `false` with the registry
untouched. -/
def setVariableValueInternal (vars : List VariableConfig) (index : Int) (v : JsonVal) :
    Bool × List VariableConfig :=
  if index < 0 ∨ (vars.length : Int) ≤ index then (false, vars)
  else
    match vars[index.toNat]? with
    | none => (false, vars)
    | some var =>
      match var.type with
      | VarType.TYPE_INT =>
        if ¬(isJsonInt v ∨
             (isJsonNumeric v ∧ jsonAsRat v = ((ratTrunc (jsonAsRat v) : Int) : ℚ))) then
          (false, vars)
        else
          if var.hasLimits ∧
              (((jsonAsInt v : Int) : ℚ) < var.minVal ∨ ((jsonAsInt v : Int) : ℚ) > var.maxVal) then
            (false, vars)
          else
            (true, vars.set index.toNat { var with intValue := jsonAsInt v })
      | VarType.TYPE_FLOAT =>
        if ¬(isJsonNumeric v ∨ isJsonInt v) then (false, vars)
        else
          if var.hasLimits ∧ (jsonAsRat v < var.minVal ∨ jsonAsRat v > var.maxVal) then
            (false, vars)
          else
            (true, vars.set index.toNat { var with floatValue := jsonAsRat v })
      | VarType.TYPE_STRING =>
        if ¬isJsonString v then (false, vars)
        else (true, vars.set index.toNat { var with stringValue := jsonAsString v })

/-- Function `varTypeToCharString` (ESP32WebSocket.h, lines 345-352). -/
def varTypeToCharString : VarType → String
  | VarType.TYPE_INT => "INT"
  | VarType.TYPE_FLOAT => "FLOAT"
  | VarType.TYPE_STRING => "STRING"

/-- The JSON `value` field a variable currently carries (the `switch` on
`var.type` shared by `sendVariableValueInternal`, the config list and
`broadcastVariableUpdate`). -/
def currentValueJson (var : VariableConfig) : JsonVal :=
  match var.type with
  | VarType.TYPE_INT => JsonVal.jint var.intValue
  | VarType.TYPE_FLOAT => JsonVal.jfloat var.floatValue
  | VarType.TYPE_STRING => JsonVal.jstr var.stringValue

/-- One entry of the `get_all_vars_config` response array
(ESP32WebSocket.h, lines 511-526): `min`/`max` keys are present exactly
when `hasLimits` is set. -/
structure ConfigEntry where
  name : String
  type : String
  value : JsonVal
  hasLimits : Bool
  min : Option ℚ
  max : Option ℚ
deriving DecidableEq

/-- The config-list entry built for one registry variable. -/
def entryOf (var : VariableConfig) : ConfigEntry :=
  { name := var.name
    type := varTypeToCharString var.type
    value := currentValueJson var
    hasLimits := var.hasLimits
    min := if var.hasLimits then some var.minVal else none
    max := if var.hasLimits then some var.maxVal else none }

/-- Outbound message addressed to a client over `ws.text` (a serialized
JSON object in the code). -/
inductive Response where
  | value : String → JsonVal → Response
  | status : String → String → Response
  | configList : List ConfigEntry → Response
deriving DecidableEq

/-- Function `sendVariableValueInternal` (ESP32WebSocket.h, lines
303-320): the `Value` message for a registry index, `none` when the
index is invalid (the code silently returns without sending). -/
def sendVariableValueInternal (vars : List VariableConfig) (index : Int) : Option Response :=
  if index < 0 ∨ (vars.length : Int) ≤ index then none
  else
    match vars[index.toNat]? with
    | none => none
    | some var => some (Response.value var.name (currentValueJson var))

/-- Application state of `src/main.cpp`: the sample buffer fill (the
filled prefix of `sensorDataBuffer`, whose length is
`currentBufferIndex`), the stream reference start time and the
`isAppStreaming` flag. -/
structure SensorDataPacket where
  reading1 : Nat
  reading2 : Nat
  reading3 : Nat
  reading4 : Nat
  reading5 : Nat
  reading6 : Nat
  time_ms : Nat
deriving DecidableEq

/-- Reduction mod 2^16 (storage into a `uint16_t` field). -/
def u16 (n : Nat) : Nat := n % 65536

/-- Reduction mod 2^32 (storage into a `uint32_t`, e.g. `millis()`). -/
def u32 (n : Nat) : Nat := n % 4294967296

/-- Wrapping `uint32_t` subtraction `a - b` (used for
`millis() - streamStartTimeMs`). -/
def u32sub (a b : Nat) : Nat := u32 (u32 a + 4294967296 - u32 b)

/-- Application-side streaming state of `src/main.cpp`. -/
structure AppState where
  buffer : List SensorDataPacket
  streamStartTimeMs : Nat
  isAppStreaming : Bool
deriving DecidableEq

/-- Callback `application_onStreamStart` (main.cpp, lines 82-88): reset
the buffer index to 0, record the start time, enable sampling. -/
def application_onStreamStart (_a : AppState) (nowMs : Nat) : AppState :=
  { buffer := [], streamStartTimeMs := u32 nowMs, isAppStreaming := true }

/-- Callback `application_onStreamStop` (main.cpp, lines 95-99): disable
sampling; the partially filled buffer is left as is (and never flushed). -/
def application_onStreamStop (a : AppState) : AppState :=
  { a with isAppStreaming := false }

/-- Combined state of the library (`_variables`, the two stream
callbacks' registration, `_isStreaming`, `ws.count()`) and of the demo
application.  In this repository the registered callbacks, when present,
are `application_onStreamStart` / `application_onStreamStop` from
`main.cpp`. -/
structure SysState where
  vars : List VariableConfig
  hasStartCallback : Bool
  hasStopCallback : Bool
  isStreaming : Bool
  clientCount : Nat
  app : AppState
deriving DecidableEq

/-- Invocation of `_onStreamStartCallback` (registered to
`application_onStreamStart`); only called under a non-null check. -/
def invokeStartCallback (st : SysState) (nowMs : Nat) : SysState :=
  { st with app := application_onStreamStart st.app nowMs }

/-- Invocation of `_onStreamStopCallback` (registered to
`application_onStreamStop`); only called under a non-null check. -/
def invokeStopCallback (st : SysState) : SysState :=
  { st with app := application_onStreamStop st.app }

/-- Parsed inbound JSON command document, with the three fields the
router reads: `jsonDoc["action"]` (absent or non-string gives a null
`const char*`), `jsonDoc["variable"]`, and `jsonDoc["value"]` (`none` =
key absent, `some jnull` = explicit null). -/
structure InMsg where
  action : Option String
  varName : Option String
  value : Option JsonVal
deriving DecidableEq

/-- Branch of `onWebSocketEvent` for `action` = "get"/"set"
(ESP32WebSocket.h, lines 416-451). -/
def handleGetSet (st : SysState) (isGet : Bool) (msg : InMsg) : SysState × List Response :=
  match msg.varName with
  | none =>
    (st, [Response.status "error" "Missing \x27variable\x27 field for get/set action."])
  | some name =>
    let varIndex := findVariableIndexInternal st.vars name
    if varIndex = -1 then (st, [Response.status "error" "Variable name not found."])
    else
      if isGet then (st, (sendVariableValueInternal st.vars varIndex).toList)
      else
        match msg.value with
        | none =>
          (st, [Response.status "error" "Missing or null \x27value\x27 field for set action."])
        | some JsonVal.jnull =>
          (st, [Response.status "error" "Missing or null \x27value\x27 field for set action."])
        | some v =>
          let r := setVariableValueInternal st.vars varIndex v
          if r.1 then
            ({ st with vars := r.2 }, (sendVariableValueInternal r.2 varIndex).toList)
          else
            (st, [Response.status "error" "Failed to set value (invalid type or out of limits)."])

/-- Branch of `onWebSocketEvent` for `action` = "start_stream"
(ESP32WebSocket.h, lines 452-472). -/
def handleStartStream (st : SysState) (nowMs : Nat) : SysState × List Response :=
  if st.hasStartCallback then
    if ¬st.isStreaming then
      ({ invokeStartCallback st nowMs with isStreaming := true },
       [Response.status "ok" "Stream started."])
    else (st, [Response.status "info" "Stream was already active."])
  else (st, [Response.status "error" "Streaming feature not implemented/configured."])

/-- Branch of `onWebSocketEvent` for `action` = "stop_stream"
(ESP32WebSocket.h, lines 474-494). -/
def handleStopStream (st : SysState) : SysState × List Response :=
  if st.hasStopCallback then
    if st.isStreaming then
      ({ invokeStopCallback st with isStreaming := false },
       [Response.status "ok" "Stream stopped."])
    else (st, [Response.status "info" "Stream was already stopped."])
  else (st, [Response.status "error" "Streaming feature not implemented/configured."])

/-- Branch of `onWebSocketEvent` for `action` = "get_all_vars_config"
(ESP32WebSocket.h, lines 496-533). -/
def handleConfigList (st : SysState) : SysState × List Response :=
  if st.vars.isEmpty then
    (st, [Response.status "error" "No variables configured on server."])
  else
    (st, [Response.configList (st.vars.map entryOf)])

/-- Dispatch on the `action` field of a successfully parsed command
(ESP32WebSocket.h, lines 408-539). -/
def handleMessage (st : SysState) (msg : InMsg) (nowMs : Nat) : SysState × List Response :=
  match msg.action with
  | none => (st, [Response.status "error" "JSON missing \x27action\x27 field."])
  | some act =>
    if act = "get" ∨ act = "set" then handleGetSet st (act = "get") msg
    else if act = "start_stream" then handleStartStream st nowMs
    else if act = "stop_stream" then handleStopStream st
    else if act = "get_all_vars_config" then handleConfigList st
    else (st, [Response.status "error" "Unknown \x27action\x27 command."])

/-- Frame metadata `AwsFrameInfo` as inspected by the handler: opcode
(`WS_TEXT` = 1, `WS_BINARY` = 2), final-fragment flag, frame index, and
the declared total frame length `info->len`. -/
structure AwsFrameInfo where
  opcode : Nat
  final : Bool
  index : Nat
  len : Nat
deriving DecidableEq

/-- Case `WS_EVT_DATA` of `onWebSocketEvent` (ESP32WebSocket.h, lines
382-547): a text frame is processed only when it is a single, final,
unfragmented message whose declared length equals the received length;
`parsed` is the result of `deserializeJson` on the payload (`none` =
parse error).  Any other frame (fragmented text, binary, continuation)
produces no response and no state change. -/
def onDataEvent (st : SysState) (info : AwsFrameInfo) (recvLen : Nat)
    (parsed : Option InMsg) (nowMs : Nat) : SysState × List Response :=
  if info.opcode = 1 ∧ info.final = true ∧ info.index = 0 ∧ info.len = recvLen then
    match parsed with
    | none => (st, [Response.status "error" "Invalid JSON format received."])
    | some msg => handleMessage st msg nowMs
  else (st, [])

/-- Case `WS_EVT_DISCONNECT` of `onWebSocketEvent` (ESP32WebSocket.h,
lines 369-380).  The transport has already removed the client, so
`ws.count()` is the decremented count; if streaming is active, the set
just became empty and a stop callback is registered, the stop callback
runs and `_isStreaming` is cleared.  Output: the new state, the number
of stop-callback invocations, and the (always empty) list of
client-addressed responses. -/
def onDisconnect (st : SysState) : SysState × Nat × List Response :=
  let st1 := { st with clientCount := st.clientCount - 1 }
  if st1.isStreaming ∧ st1.clientCount = 0 ∧ st1.hasStopCallback then
    ({ invokeStopCallback st1 with isStreaming := false }, 1, [])
  else (st1, 0, [])

/-- A sequence of `n` consecutive client disconnect events, accumulating
stop-callback invocations and client-addressed responses. -/
def processDisconnects : Nat → SysState → SysState × Nat × List Response
  | 0, st => (st, 0, [])
  | n + 1, st =>
    let r := onDisconnect st
    let r' := processDisconnects n r.1
    (r'.1, r.2.1 + r'.2.1, r.2.2 ++ r'.2.2)

/-- Little-endian bytes of a `uint16_t`. -/
def u16le (n : Nat) : List Nat := [n % 256, n / 256 % 256]

/-- Little-endian bytes of a `uint32_t`. -/
def u32le (n : Nat) : List Nat :=
  [n % 256, n / 256 % 256, n / 65536 % 256, n / 16777216 % 256]

/-- Raw memory image of one packed `SensorDataPacket` (main.cpp, lines
49-59): six little-endian `uint16_t` readings then one little-endian
`uint32_t` timestamp, 16 bytes total, no padding. -/
def packetBytes (p : SensorDataPacket) : List Nat :=
  u16le p.reading1 ++ u16le p.reading2 ++ u16le p.reading3 ++
  u16le p.reading4 ++ u16le p.reading5 ++ u16le p.reading6 ++ u32le p.time_ms

/-- Raw memory image of the filled sample buffer. -/
def chunkBytes (buf : List SensorDataPacket) : List Nat :=
  (buf.map packetBytes).flatten

/-- Function `broadcastBinaryData` (ESP32WebSocket.h, lines 808-812):
the chunk is delivered via `ws.binaryAll` only when at least one client
is connected and the data is non-empty. -/
def broadcastBinaryData (clientCount : Nat) (data : List Nat) : List (List Nat) :=
  if 0 < clientCount ∧ 0 < data.length then [data] else []

/-- One sampling iteration's inputs: the six `analogRead` values and the
current `millis()`. -/
structure LoopInput where
  r1 : Nat
  r2 : Nat
  r3 : Nat
  r4 : Nat
  r5 : Nat
  r6 : Nat
  nowMs : Nat
deriving DecidableEq

/-- The packet built and stored by one streaming iteration of `loop`. -/
def mkPacket (inp : LoopInput) (startMs : Nat) : SensorDataPacket :=
  { reading1 := u16 inp.r1, reading2 := u16 inp.r2, reading3 := u16 inp.r3
    reading4 := u16 inp.r4, reading5 := u16 inp.r5, reading6 := u16 inp.r6
    time_ms := u32sub inp.nowMs startMs }

/-- One iteration of `loop` (main.cpp, lines 156-219): when
`isAppStreaming`, append one sample; when the buffer reaches
`SAMPLES_PER_CHUNK` = 25, broadcast the whole 25-packet byte block and
reset the index to 0.  Output: new state and the chunks delivered by
`broadcastBinaryData`. -/
def loopIter (st : SysState) (inp : LoopInput) : SysState × List (List Nat) :=
  if st.app.isAppStreaming then
    let buf := st.app.buffer ++ [mkPacket inp st.app.streamStartTimeMs]
    if 25 ≤ buf.length then
      ({ st with app := { st.app with buffer := [] } },
       broadcastBinaryData st.clientCount (chunkBytes buf))
    else
      ({ st with app := { st.app with buffer := buf } }, [])
  else (st, [])

/-- A sequence of `loop` iterations, concatenating the delivered chunks
in emission order. -/
def runLoop : SysState → List LoopInput → SysState × List (List Nat)
  | st, [] => (st, [])
  | st, inp :: rest =>
    let r := loopIter st inp
    let r' := runLoop r.1 rest
    (r'.1, r.2 ++ r'.2)

/-- The demo registry `configurableVariables` of `main.cpp`, lines
20-26. -/
def configurableVariables : List VariableConfig :=
  [ ⟨"led_intensity", VarType.TYPE_INT, 128, 0, "", 0, 255, true⟩,
    ⟨"update_interval", VarType.TYPE_INT, 500, 0, "", 50, 5000, true⟩,
    ⟨"motor_enable", VarType.TYPE_INT, 0, 0, "", 0, 1, true⟩,
    ⟨"device_label", VarType.TYPE_STRING, 0, 0, "ESP32-01", 0, 0, false⟩ ]

/-- A convenient concrete state: the demo application right after
`setup()` (registry from `main.cpp`, both callbacks registered, not
streaming) with one connected client. -/
def demoState : SysState :=
  { vars := configurableVariables
    hasStartCallback := true
    hasStopCallback := true
    isStreaming := false
    clientCount := 1
    app := { buffer := [], streamStartTimeMs := 0, isAppStreaming := false } }

/-- Setting an entry of a list to the element it already contains is the
identity. -/
lemma list_set_of_getElem? {α : Type _} :
    ∀ (l : List α) (i : Nat) (a : α), l[i]? = some a → l.set i a = l
  | [], i, a, h => by simp at h
  | x :: xs, 0, a, h => by
      simp only [List.getElem?_cons_zero, Option.some.injEq] at h
      simp [h]
  | x :: xs, i + 1, a, h => by
      simp only [List.getElem?_cons_succ] at h
      simp [List.set, list_set_of_getElem? xs i a h]

/-- Validation never renames registry entries: the name column of the
registry is invariant under `setVariableValueInternal`. -/
lemma setVar_names (vars : List VariableConfig) (index : Int) (v : JsonVal) :
    ((setVariableValueInternal vars index v).2).map VariableConfig.name
      = vars.map VariableConfig.name := by
  unfold setVariableValueInternal
  repeat' split
  all_goals
    first
    | rfl
    | (rw [List.map_set]
       refine list_set_of_getElem? _ _ _ ?_
       rw [List.getElem?_map]
       simp_all)

/-- The scan of `findVariableIndexInternal` only looks at names, so two
registries with the same name column give the same index. -/
lemma findVariableIndexAux_congr (nm : String) :
    ∀ (xs ys : List VariableConfig) (i : Int),
      xs.map VariableConfig.name = ys.map VariableConfig.name →
      findVariableIndexAux nm xs i = findVariableIndexAux nm ys i
  | [], [], _, _ => rfl
  | [], _ :: _, _, h => by simp at h
  | _ :: _, [], _, h => by simp at h
  | x :: xs, y :: ys, i, h => by
      simp only [List.map_cons, List.cons.injEq] at h
      simp only [findVariableIndexAux, h.1]
      split
      · rfl
      · exact findVariableIndexAux_congr nm xs ys (i + 1) h.2

/-- Lookup by name is invariant under changes preserving the name
column. -/
lemma findVariableIndexInternal_congr (xs ys : List VariableConfig) (nm : String)
    (h : xs.map VariableConfig.name = ys.map VariableConfig.name) :
    findVariableIndexInternal xs nm = findVariableIndexInternal ys nm := by
  unfold findVariableIndexInternal
  have hemp : xs.isEmpty = ys.isEmpty := by
    cases xs <;> cases ys <;> simp_all
  rw [hemp]
  split
  · rfl
  · exact findVariableIndexAux_congr nm xs ys 0 h

/-- A successful `set` implies the index guard passed. -/
lemma setVar_true_guard {vars : List VariableConfig} {index : Int} {v : JsonVal}
    (hok : (setVariableValueInternal vars index v).1 = true) :
    0 ≤ index ∧ index < (vars.length : Int) := by
  have hng : ¬(index < 0 ∨ (vars.length : Int) ≤ index) := by
    intro h
    rw [setVariableValueInternal, if_pos h] at hok
    simp at hok
  omega

/-- Every run of `setVariableValueInternal` either leaves the registry
untouched or reports success. -/
lemma setVar_cases (vars : List VariableConfig) (index : Int) (v : JsonVal) :
    (setVariableValueInternal vars index v).2 = vars
      ∨ (setVariableValueInternal vars index v).1 = true := by
  unfold setVariableValueInternal
  repeat' split
  all_goals simp

/-- Shape of `sendVariableValueInternal` at a valid index. -/
lemma sendVar_eq {vars : List VariableConfig} {index : Int} {w : VariableConfig}
    (hguard : ¬(index < 0 ∨ (vars.length : Int) ≤ index))
    (hw : vars[index.toNat]? = some w) :
    sendVariableValueInternal vars index
      = some (Response.value w.name (currentValueJson w)) := by
  rw [sendVariableValueInternal, if_neg hguard, hw]

/-- C2: if set validation fails the stored value is left unchanged (no
partial write); concretely, setting the Integer variable
`led_intensity` bounded [0,255] and currently holding 128 to 300 yields
the validation-failure Status and a subsequent get still returns 128. -/
theorem failed_set_leaves_value_unchanged :
    (∀ (vars : List VariableConfig) (index : Int) (v : JsonVal),
        (setVariableValueInternal vars index v).1 = false →
        (setVariableValueInternal vars index v).2 = vars)
    ∧ handleMessage demoState ⟨some "set", some "led_intensity", some (JsonVal.jint 300)⟩ 0
        = (demoState,
           [Response.status "error" "Failed to set value (invalid type or out of limits)."])
    ∧ handleMessage demoState ⟨some "get", some "led_intensity", none⟩ 0
        = (demoState, [Response.value "led_intensity" (JsonVal.jint 128)]) := by
  refine ⟨?_, by decide, by decide⟩
  intro vars index v h
  rcases setVar_cases vars index v with h2 | h1
  · exact h2
  · rw [h1] at h
    cases h

/-- C2 witness: the out-of-range set on `led_intensity` fails and leaves
the demo registry unchanged. -/
theorem failed_set_leaves_value_unchanged_witness :
    (setVariableValueInternal configurableVariables 0 (JsonVal.jint 300)).1 = false
    ∧ (setVariableValueInternal configurableVariables 0 (JsonVal.jint 300)).2
        = configurableVariables :=
  ⟨by decide,
   failed_set_leaves_value_unchanged.1 configurableVariables 0 (JsonVal.jint 300) (by decide)⟩

/-- C9: a WebSocket text frame that is not a single, final, unfragmented
message (final flag unset, frame index nonzero, or declared length
different from the received length) is silently dropped: no response is
sent and the state (registry and streaming flags) is unchanged. -/
theorem nonfinal_text_frame_dropped (st : SysState) (info : AwsFrameInfo)
    (recvLen : Nat) (parsed : Option InMsg) (nowMs : Nat)
    (_hop : info.opcode = 1)
    (hbad : ¬(info.final = true ∧ info.index = 0 ∧ info.len = recvLen)) :
    onDataEvent st info recvLen parsed nowMs = (st, []) := by
  rw [onDataEvent.eq_def, if_neg]
  rintro ⟨-, hf, hi, hl⟩
  exact hbad ⟨hf, hi, hl⟩

/-- C9 witness: a non-final text frame in the demo state is dropped. -/
theorem nonfinal_text_frame_dropped_witness :
    (⟨1, false, 0, 5⟩ : AwsFrameInfo).opcode = 1
    ∧ onDataEvent demoState ⟨1, false, 0, 5⟩ 5
        (some ⟨some "get", some "led_intensity", none⟩) 0 = (demoState, []) :=
  ⟨rfl, nonfinal_text_frame_dropped demoState ⟨1, false, 0, 5⟩ 5
     (some ⟨some "get", some "led_intensity", none⟩) 0 rfl (by decide)⟩

/-- C10: when the last client disconnects while streaming but no stop
callback is registered, the auto-stop is skipped: no callback runs and
the library stays in the Streaming state. -/
theorem autostop_skipped_without_hook (st : SysState)
    (hstream : st.isStreaming = true) (hstop : st.hasStopCallback = false)
    (hcount : st.clientCount = 1) :
    onDisconnect st = ({ st with clientCount := 0 }, 0, ([] : List Response))
    ∧ (onDisconnect st).1.isStreaming = true := by
  have h1 : onDisconnect st = ({ st with clientCount := 0 }, 0, ([] : List Response)) := by
    rw [onDisconnect]
    simp [hstop, hcount]
  exact ⟨h1, by rw [h1]; exact hstream⟩

/-- C10 witness: the disconnect of the only client of a streaming,
stop-hook-less state does not stop the stream. -/
theorem autostop_skipped_without_hook_witness :
    onDisconnect { demoState with isStreaming := true, hasStopCallback := false }
        = ({ demoState with isStreaming := true, hasStopCallback := false, clientCount := 0 },
           0, ([] : List Response))
    ∧ (onDisconnect { demoState with isStreaming := true, hasStopCallback := false }).1.isStreaming
        = true :=
  autostop_skipped_without_hook
    { demoState with isStreaming := true, hasStopCallback := false } rfl rfl rfl

/-- C6: with no stream callbacks registered at all, both `start_stream`
and `stop_stream` return the "not configured" error Status and change
nothing, whatever the current streaming state. -/
theorem no_hooks_not_configured (st : SysState) (nowMs nowMs' : Nat)
    (h1 : st.hasStartCallback = false) (h2 : st.hasStopCallback = false) :
    handleMessage st ⟨some "start_stream", none, none⟩ nowMs
      = (st, [Response.status "error" "Streaming feature not implemented/configured."])
    ∧ handleMessage st ⟨some "stop_stream", none, none⟩ nowMs'
      = (st, [Response.status "error" "Streaming feature not implemented/configured."]) := by
  constructor
  · show handleStartStream st nowMs = _
    rw [handleStartStream, if_neg]
    rw [h1]
    simp
  · show handleStopStream st = _
    rw [handleStopStream, if_neg]
    rw [h2]
    simp

/-- C5: with a start callback registered, a first `start_stream` from
the stopped state invokes the application's start hook (buffer index
reset to 0, reference start time recorded, sampling enabled), switches
the library to Streaming and answers `ok`; an immediate second
`start_stream` answers `info` "already active" and changes nothing. -/
theorem start_stream_twice (st : SysState) (nowMs nowMs' : Nat)
    (hcb : st.hasStartCallback = true) (hst : st.isStreaming = false) :
    handleMessage st ⟨some "start_stream", none, none⟩ nowMs
      = ({ st with
             isStreaming := true
             app := { buffer := [], streamStartTimeMs := u32 nowMs, isAppStreaming := true } },
         [Response.status "ok" "Stream started."])
    ∧ handleMessage
        { st with
            isStreaming := true
            app := { buffer := [], streamStartTimeMs := u32 nowMs, isAppStreaming := true } }
        ⟨some "start_stream", none, none⟩ nowMs'
      = ({ st with
             isStreaming := true
             app := { buffer := [], streamStartTimeMs := u32 nowMs, isAppStreaming := true } },
         [Response.status "info" "Stream was already active."]) := by
  constructor
  · show handleStartStream st nowMs = _
    simp [handleStartStream, invokeStartCallback, application_onStreamStart, hcb, hst]
  · show handleStartStream _ nowMs' = _
    simp [handleStartStream, hcb]

/-- C5 witness: the double `start_stream` on the demo state. -/
theorem start_stream_twice_witness :
    handleMessage demoState ⟨some "start_stream", none, none⟩ 1000
      = ({ demoState with
             isStreaming := true
             app := { buffer := [], streamStartTimeMs := u32 1000, isAppStreaming := true } },
         [Response.status "ok" "Stream started."])
    ∧ handleMessage
        { demoState with
            isStreaming := true
            app := { buffer := [], streamStartTimeMs := u32 1000, isAppStreaming := true } }
        ⟨some "start_stream", none, none⟩ 2000
      = ({ demoState with
             isStreaming := true
             app := { buffer := [], streamStartTimeMs := u32 1000, isAppStreaming := true } },
         [Response.status "info" "Stream was already active."]) :=
  start_stream_twice demoState 1000 2000 rfl rfl

/-- Evaluation of `setVariableValueInternal` at a valid index holding an
Integer-typed variable: the `TYPE_INT` validation branch. -/
lemma setVar_int_eval (vars : List VariableConfig) (i : Nat) (var : VariableConfig)
    (v : JsonVal) (hvar : vars[i]? = some var) (hty : var.type = VarType.TYPE_INT) :
    setVariableValueInternal vars (i : Int) v
      = if ¬(isJsonInt v ∨
             (isJsonNumeric v ∧ jsonAsRat v = ((ratTrunc (jsonAsRat v) : Int) : ℚ))) then
          (false, vars)
        else
          if var.hasLimits ∧
              (((jsonAsInt v : Int) : ℚ) < var.minVal ∨ ((jsonAsInt v : Int) : ℚ) > var.maxVal) then
            (false, vars)
          else
            (true, vars.set i { var with intValue := jsonAsInt v }) := by
  have hlt : i < vars.length := by
    by_contra hcon
    rw [List.getElem?_eq_none (by omega)] at hvar
    cases hvar
  have hguard : ¬((i : Int) < 0 ∨ (vars.length : Int) ≤ (i : Int)) := by omega
  have htn : ((i : Int)).toNat = i := by omega
  unfold setVariableValueInternal
  rw [if_neg hguard, htn]
  split
  · next heq => rw [heq] at hvar; cases hvar
  · next w heq =>
      rw [heq] at hvar
      injection hvar with hw
      subst hw
      split
      · rfl
      · next heq2 => rw [hty] at heq2; cases heq2
      · next heq2 => rw [hty] at heq2; cases heq2

/-- C3: an Integer-typed variable accepts an integer candidate, or a
floating candidate with zero fractional part, and stores the result as
an integer; a floating candidate with nonzero fractional part is
rejected by the type check (and the registry is untouched). -/
theorem int_set_validation (vars : List VariableConfig) (i : Nat) (var : VariableConfig)
    (hvar : vars[i]? = some var) (hty : var.type = VarType.TYPE_INT) :
    (∀ n : Int, intFits n = true →
        (var.hasLimits = true → var.minVal ≤ (n : ℚ) ∧ (n : ℚ) ≤ var.maxVal) →
        setVariableValueInternal vars (i : Int) (JsonVal.jint n)
          = (true, vars.set i { var with intValue := n }))
    ∧ (∀ q : ℚ, q = ((ratTrunc q : Int) : ℚ) →
        (var.hasLimits = true → var.minVal ≤ q ∧ q ≤ var.maxVal) →
        setVariableValueInternal vars (i : Int) (JsonVal.jfloat q)
          = (true, vars.set i { var with intValue := ratTrunc q }))
    ∧ (∀ q : ℚ, q ≠ ((ratTrunc q : Int) : ℚ) →
        setVariableValueInternal vars (i : Int) (JsonVal.jfloat q) = (false, vars)) := by
  refine ⟨?_, ?_, ?_⟩
  · intro n hfit hlim
    rw [setVar_int_eval vars i var (JsonVal.jint n) hvar hty]
    have hA : isJsonInt (JsonVal.jint n) = true ∨
        (isJsonNumeric (JsonVal.jint n) = true ∧
         jsonAsRat (JsonVal.jint n)
           = ((ratTrunc (jsonAsRat (JsonVal.jint n)) : Int) : ℚ)) := Or.inl hfit
    have hB : ¬(var.hasLimits = true ∧
        (((jsonAsInt (JsonVal.jint n) : Int) : ℚ) < var.minVal ∨
         ((jsonAsInt (JsonVal.jint n) : Int) : ℚ) > var.maxVal)) := by
      rintro ⟨hL, hc⟩
      rcases hlim hL with ⟨hlo, hhi⟩
      simp only [jsonAsInt] at hc
      rcases hc with hc | hc <;> linarith
    rw [if_neg (not_not_intro hA), if_neg hB]
    rfl
  · intro q hq hlim
    rw [setVar_int_eval vars i var (JsonVal.jfloat q) hvar hty]
    have hA : isJsonInt (JsonVal.jfloat q) = true ∨
        (isJsonNumeric (JsonVal.jfloat q) = true ∧
         jsonAsRat (JsonVal.jfloat q)
           = ((ratTrunc (jsonAsRat (JsonVal.jfloat q)) : Int) : ℚ)) := Or.inr ⟨rfl, hq⟩
    have hB : ¬(var.hasLimits = true ∧
        (((jsonAsInt (JsonVal.jfloat q) : Int) : ℚ) < var.minVal ∨
         ((jsonAsInt (JsonVal.jfloat q) : Int) : ℚ) > var.maxVal)) := by
      rintro ⟨hL, hc⟩
      rcases hlim hL with ⟨hlo, hhi⟩
      simp only [jsonAsInt] at hc
      rw [← hq] at hc
      rcases hc with hc | hc <;> linarith
    rw [if_neg (not_not_intro hA), if_neg hB]
    rfl
  · intro q hq
    rw [setVar_int_eval vars i var (JsonVal.jfloat q) hvar hty]
    have hC : ¬(isJsonInt (JsonVal.jfloat q) = true ∨
        (isJsonNumeric (JsonVal.jfloat q) = true ∧
         jsonAsRat (JsonVal.jfloat q)
           = ((ratTrunc (jsonAsRat (JsonVal.jfloat q)) : Int) : ℚ))) := by
      rintro (hbad | ⟨-, hbad⟩)
      · exact absurd hbad (by simp [isJsonInt])
      · exact hq hbad
    rw [if_pos hC]

/-- C3 witness: on the demo registry's `led_intensity`, setting 125.0
(the rational 125 carried by a float-stored JSON number) succeeds and
stores the integer 125, while 125.5 fails the type check. -/
theorem int_set_validation_witness :
    setVariableValueInternal configurableVariables 0 (JsonVal.jfloat 125)
      = (true, configurableVariables.set 0
          ⟨"led_intensity", VarType.TYPE_INT, 125, 0, "", 0, 255, true⟩)
    ∧ setVariableValueInternal configurableVariables 0 (JsonVal.jfloat (mkRat 251 2))
      = (false, configurableVariables)
    ∧ setVariableValueInternal configurableVariables 0 (JsonVal.jint 125)
      = (true, configurableVariables.set 0
          ⟨"led_intensity", VarType.TYPE_INT, 125, 0, "", 0, 255, true⟩) :=
  ⟨(int_set_validation configurableVariables 0
       ⟨"led_intensity", VarType.TYPE_INT, 128, 0, "", 0, 255, true⟩ rfl rfl).2.1
     125 (by decide) (by intro h; exact ⟨by decide, by decide⟩),
   (int_set_validation configurableVariables 0
       ⟨"led_intensity", VarType.TYPE_INT, 128, 0, "", 0, 255, true⟩ rfl rfl).2.2
     (mkRat 251 2) (by decide),
   (int_set_validation configurableVariables 0
       ⟨"led_intensity", VarType.TYPE_INT, 128, 0, "", 0, 255, true⟩ rfl rfl).1
     125 (by decide) (by intro h; exact ⟨by decide, by decide⟩)⟩

/-- C8: `get_all_vars_config` on a nonempty registry answers a
ConfigList with exactly one entry per variable, in registry order, each
carrying name, type string, current value and hasLimits, with min/max
present exactly when hasLimits is true; on an empty registry it answers
the "no variables configured" error Status. -/
theorem config_list_snapshot (st : SysState) (nowMs : Nat) :
    (st.vars ≠ [] →
       handleMessage st ⟨some "get_all_vars_config", none, none⟩ nowMs
         = (st, [Response.configList (st.vars.map entryOf)])
       ∧ (st.vars.map entryOf).length = st.vars.length
       ∧ (∀ i : Nat, (st.vars.map entryOf)[i]? = Option.map entryOf st.vars[i]?)
       ∧ (∀ var ∈ st.vars,
            (entryOf var).name = var.name
            ∧ (entryOf var).type = varTypeToCharString var.type
            ∧ (entryOf var).value = currentValueJson var
            ∧ (entryOf var).hasLimits = var.hasLimits
            ∧ ((entryOf var).min).isSome = var.hasLimits
            ∧ ((entryOf var).max).isSome = var.hasLimits
            ∧ (var.hasLimits = true →
                 (entryOf var).min = some var.minVal ∧ (entryOf var).max = some var.maxVal)))
    ∧ (st.vars = [] →
       handleMessage st ⟨some "get_all_vars_config", none, none⟩ nowMs
         = (st, [Response.status "error" "No variables configured on server."])) := by
  constructor
  · intro h
    refine ⟨?_, List.length_map _ _, fun i => List.getElem?_map _ _ _, ?_⟩
    · show handleConfigList st = _
      rw [handleConfigList, if_neg]
      simp [List.isEmpty_iff, h]
    · intro var _
      refine ⟨rfl, rfl, rfl, rfl, ?_, ?_, fun hL => by simp [entryOf, hL]⟩
      · cases hL : var.hasLimits <;> simp [entryOf, hL]
      · cases hL : var.hasLimits <;> simp [entryOf, hL]
  · intro h
    show handleConfigList st = _
    rw [handleConfigList, if_pos]
    simp [List.isEmpty_iff, h]

/-- C8 witness: the demo registry of 4 variables yields a 4-entry
snapshot. -/
theorem config_list_snapshot_witness :
    handleMessage demoState ⟨some "get_all_vars_config", none, none⟩ 0
      = (demoState, [Response.configList (configurableVariables.map entryOf)])
    ∧ (configurableVariables.map entryOf).length = 4 :=
  ⟨((config_list_snapshot demoState 0).1 (by decide)).1,
   ((config_list_snapshot demoState 0).1 (by decide)).2.1⟩

/-- A disconnect that does not empty the client set (or happens with the
stream already stopped) only decrements the count. -/
lemma onDisconnect_step (st : SysState) (hne : st.clientCount - 1 ≠ 0) :
    onDisconnect st = ({ st with clientCount := st.clientCount - 1 }, 0, []) := by
  rw [onDisconnect]
  rw [if_neg]
  rintro ⟨-, hc, -⟩
  exact hne hc

/-- A disconnect that empties the client set while streaming with a stop
callback registered: the callback runs and the stream flags clear. -/
lemma onDisconnect_emptying (st : SysState)
    (hstream : st.isStreaming = true) (hstop : st.hasStopCallback = true)
    (hcount : st.clientCount = 1) :
    onDisconnect st
      = ({ st with
             clientCount := 0
             isStreaming := false
             app := application_onStreamStop st.app }, 1, []) := by
  rw [onDisconnect]
  rw [if_pos ⟨hstream, by simp [hcount], hstop⟩]
  simp [invokeStopCallback, hcount]

/-- C4: with the stream active and a stop callback registered, a client
set of size N emptied by N consecutive disconnects invokes the stop
callback exactly once, leaves the library Stopped (and the application
idle), and produces no client-addressed response. -/
theorem autostop_fires_once (n : Nat) (st : SysState)
    (hstream : st.isStreaming = true) (hstop : st.hasStopCallback = true)
    (hcount : st.clientCount = n) (hn : 0 < n) :
    (processDisconnects n st).2.1 = 1
    ∧ (processDisconnects n st).1.isStreaming = false
    ∧ (processDisconnects n st).1.app.isAppStreaming = false
    ∧ (processDisconnects n st).1.clientCount = 0
    ∧ (processDisconnects n st).2.2 = ([] : List Response) := by
  induction n generalizing st with
  | zero => omega
  | succ m ih =>
    rcases Nat.eq_zero_or_pos m with hm | hm
    · subst hm
      have hstep := onDisconnect_emptying st hstream hstop hcount
      simp [processDisconnects, hstep, application_onStreamStop]
    · have hne : st.clientCount - 1 ≠ 0 := by omega
      have hstep := onDisconnect_step st hne
      have ihr := ih { st with clientCount := st.clientCount - 1 }
        hstream hstop (by simp; omega) hm
      simp [processDisconnects, hstep]
      exact ⟨ihr.1, ihr.2.1, ihr.2.2.1, ihr.2.2.2.1, ihr.2.2.2.2⟩

/-- C4 witness: three clients streaming; all three disconnect, the stop
callback fires once and the state ends Stopped. -/
theorem autostop_fires_once_witness :
    (processDisconnects 3
        { demoState with isStreaming := true, clientCount := 3 }).2.1 = 1
    ∧ (processDisconnects 3
        { demoState with isStreaming := true, clientCount := 3 }).1.isStreaming = false
    ∧ (processDisconnects 3
        { demoState with isStreaming := true, clientCount := 3 }).1.app.isAppStreaming = false
    ∧ (processDisconnects 3
        { demoState with isStreaming := true, clientCount := 3 }).1.clientCount = 0
    ∧ (processDisconnects 3
        { demoState with isStreaming := true, clientCount := 3 }).2.2 = ([] : List Response) :=
  autostop_fires_once 3 { demoState with isStreaming := true, clientCount := 3 }
    rfl rfl rfl (by decide)

/-- Reduction of the router's set path at a found variable name and a
non-null candidate value. -/
lemma handleGetSet_set_notnull (st : SysState) (nm : String) (v : JsonVal)
    (hv : v ≠ JsonVal.jnull) (hne : findVariableIndexInternal st.vars nm ≠ -1) :
    handleGetSet st false ⟨some "set", some nm, some v⟩
      = (if (setVariableValueInternal st.vars (findVariableIndexInternal st.vars nm) v).1 then
           ({ st with
                vars := (setVariableValueInternal st.vars
                  (findVariableIndexInternal st.vars nm) v).2 },
            (sendVariableValueInternal
               (setVariableValueInternal st.vars (findVariableIndexInternal st.vars nm) v).2
               (findVariableIndexInternal st.vars nm)).toList)
         else
           (st, [Response.status "error" "Failed to set value (invalid type or out of limits)."])) := by
  cases v with
  | jnull => exact absurd rfl hv
  | jint n => simp only [handleGetSet]; rw [if_neg hne]; rfl
  | jfloat q => simp only [handleGetSet]; rw [if_neg hne]; rfl
  | jstr s => simp only [handleGetSet]; rw [if_neg hne]; rfl

/-- C1: after a validated (successful) set for a variable, the set
itself echoes a Value response carrying the variable's freshly stored
value, and a get issued immediately afterwards returns exactly the same
Value response; apart from the registry entry, the state is unchanged. -/
theorem set_then_get_returns_stored (st : SysState) (nm : String) (v : JsonVal)
    (nowMs nowMs' : Nat) (hv : v ≠ JsonVal.jnull)
    (hok : (setVariableValueInternal st.vars (findVariableIndexInternal st.vars nm) v).1
             = true) :
    ∃ (st' : SysState) (resp : Response) (w : VariableConfig),
      handleMessage st ⟨some "set", some nm, some v⟩ nowMs = (st', [resp])
      ∧ handleMessage st' ⟨some "get", some nm, none⟩ nowMs' = (st', [resp])
      ∧ st' = { st with
                  vars := (setVariableValueInternal st.vars
                    (findVariableIndexInternal st.vars nm) v).2 }
      ∧ st'.vars[(findVariableIndexInternal st.vars nm).toNat]? = some w
      ∧ resp = Response.value w.name (currentValueJson w) := by
  have hg := setVar_true_guard hok
  have hne : findVariableIndexInternal st.vars nm ≠ -1 := by omega
  have hnames := setVar_names st.vars (findVariableIndexInternal st.vars nm) v
  have hlen2 : (setVariableValueInternal st.vars (findVariableIndexInternal st.vars nm) v).2.length
      = st.vars.length := by
    have h := congrArg List.length hnames
    simpa using h
  have hlt : (findVariableIndexInternal st.vars nm).toNat
      < (setVariableValueInternal st.vars (findVariableIndexInternal st.vars nm) v).2.length := by
    omega
  obtain ⟨w, hw⟩ : ∃ w,
      (setVariableValueInternal st.vars (findVariableIndexInternal st.vars nm) v).2[
        (findVariableIndexInternal st.vars nm).toNat]? = some w := by
    rw [List.getElem?_eq_getElem hlt]
    exact ⟨_, rfl⟩
  have hsend : sendVariableValueInternal
      (setVariableValueInternal st.vars (findVariableIndexInternal st.vars nm) v).2
      (findVariableIndexInternal st.vars nm)
      = some (Response.value w.name (currentValueJson w)) :=
    sendVar_eq (by omega) hw
  have hfind : findVariableIndexInternal
      (setVariableValueInternal st.vars (findVariableIndexInternal st.vars nm) v).2 nm
      = findVariableIndexInternal st.vars nm :=
    findVariableIndexInternal_congr _ _ nm hnames
  refine ⟨{ st with
              vars := (setVariableValueInternal st.vars
                (findVariableIndexInternal st.vars nm) v).2 },
          Response.value w.name (currentValueJson w), w, ?_, ?_, rfl, hw, rfl⟩
  · show handleGetSet st false ⟨some "set", some nm, some v⟩ = _
    rw [handleGetSet_set_notnull st nm v hv hne, if_pos hok, hsend]
    rfl
  · show handleGetSet _ true ⟨some "get", some nm, none⟩ = _
    simp only [handleGetSet]
    rw [hfind, if_neg hne, hsend]
    rfl

/-- C1 witness: set `led_intensity` to 99 on the demo state, then get
it. -/
theorem set_then_get_returns_stored_witness :
    ∃ (st' : SysState) (resp : Response) (w : VariableConfig),
      handleMessage demoState ⟨some "set", some "led_intensity", some (JsonVal.jint 99)⟩ 5
        = (st', [resp])
      ∧ handleMessage st' ⟨some "get", some "led_intensity", none⟩ 6 = (st', [resp])
      ∧ st' = { demoState with
                  vars := (setVariableValueInternal demoState.vars
                    (findVariableIndexInternal demoState.vars "led_intensity")
                    (JsonVal.jint 99)).2 }
      ∧ st'.vars[(findVariableIndexInternal demoState.vars "led_intensity").toNat]? = some w
      ∧ resp = Response.value w.name (currentValueJson w) :=
  set_then_get_returns_stored demoState "led_intensity" (JsonVal.jint 99) 5 6
    (by decide) (by decide)

/-- One packed sample record occupies exactly 16 bytes. -/
lemma packetBytes_length (p : SensorDataPacket) : (packetBytes p).length = 16 := by
  simp [packetBytes, u16le, u32le]

/-- The raw buffer image is 16 bytes per stored sample. -/
lemma chunkBytes_length (buf : List SensorDataPacket) :
    (chunkBytes buf).length = 16 * buf.length := by
  induction buf with
  | nil => rfl
  | cons p rest ih =>
      simp only [chunkBytes, List.map_cons, List.flatten_cons, List.length_append,
        List.length_cons]
      rw [packetBytes_length]
      simp only [chunkBytes] at ih
      rw [ih]
      ring

/-- Streaming iterations below buffer capacity only append: no chunk is
delivered and the buffer grows by one packet per input. -/
lemma runLoop_fill (inputs : List LoopInput) : ∀ (st : SysState),
    st.app.isAppStreaming = true → st.app.buffer.length + inputs.length ≤ 24 →
    runLoop st inputs
      = ({ st with
             app := { st.app with
               buffer := st.app.buffer
                 ++ inputs.map (fun inp => mkPacket inp st.app.streamStartTimeMs) } },
         []) := by
  induction inputs with
  | nil =>
      intro st hs _
      simp [runLoop]
  | cons inp rest ih =>
      intro st hs hle
      simp only [List.length_cons] at hle
      have hlt : ¬(25 ≤ (st.app.buffer ++ [mkPacket inp st.app.streamStartTimeMs]).length) := by
        simp only [List.length_append, List.length_cons, List.length_nil]
        omega
      simp only [runLoop, loopIter, hs, if_pos, if_neg hlt, List.map_cons]
      rw [ih]
      · simp
      · rfl
      · simp only [List.length_append, List.length_cons, List.length_nil]
        omega

/-- Streaming iterations that exactly reach buffer capacity deliver one
full 400-byte chunk and clear the buffer. -/
lemma runLoop_chunk : ∀ (inputs : List LoopInput) (st : SysState),
    st.app.isAppStreaming = true → 0 < st.clientCount →
    st.app.buffer.length + inputs.length = 25 → st.app.buffer.length ≤ 24 →
    ∃ chunk : List Nat,
      runLoop st inputs = ({ st with app := { st.app with buffer := [] } }, [chunk])
      ∧ chunk.length = 400
  | [], st, _, _, h25, h24 => by
      exfalso
      simp only [List.length_nil, Nat.add_zero] at h25
      omega
  | inp :: rest, st, hs, hcl, h25, h24 => by
      simp only [List.length_cons] at h25
      by_cases hfull : 25 ≤ (st.app.buffer ++ [mkPacket inp st.app.streamStartTimeMs]).length
      · have hb : st.app.buffer.length = 24 := by
          simp only [List.length_append, List.length_cons, List.length_nil] at hfull
          omega
        have hrest : rest = [] := by
          have : rest.length = 0 := by omega
          exact List.length_eq_zero.mp this
        subst hrest
        refine ⟨chunkBytes (st.app.buffer ++ [mkPacket inp st.app.streamStartTimeMs]), ?_, ?_⟩
        · have hclen : 0 < (chunkBytes
              (st.app.buffer ++ [mkPacket inp st.app.streamStartTimeMs])).length := by
            rw [chunkBytes_length]
            simp only [List.length_append, List.length_cons, List.length_nil]
            omega
          simp only [runLoop, loopIter, hs, if_pos, if_pos hfull, broadcastBinaryData]
          rw [if_pos ⟨hcl, hclen⟩]
          simp
        · rw [chunkBytes_length]
          simp only [List.length_append, List.length_cons, List.length_nil]
          omega
      · have hb : st.app.buffer.length + 1 ≤ 24 := by
          simp only [List.length_append, List.length_cons, List.length_nil] at hfull
          omega
        obtain ⟨chunk, hrun, hlen⟩ := runLoop_chunk rest
          { st with
              app := { st.app with
                buffer := st.app.buffer ++ [mkPacket inp st.app.streamStartTimeMs] } }
          hs hcl (by simpa using by omega) (by simpa using by omega)
        refine ⟨chunk, ?_, hlen⟩
        simp only [runLoop, loopIter, hs, if_pos, if_neg hfull]
        simp only [hs] at hrun
        rw [hrun]
        simp

/-- C7: while streaming (empty buffer, at least one client connected),
exactly K = 25 sampling iterations deliver exactly one binary chunk of
K * 16 = 400 bytes and clear the buffer; K - 1 = 24 iterations deliver
no chunk, an explicit stop then discards the 24 partially buffered
samples without flushing anything, and the next start resets the buffer
index to 0. -/
theorem chunk_emission (st : SysState)
    (hstream : st.app.isAppStreaming = true) (hbuf : st.app.buffer = [])
    (hcl : 0 < st.clientCount) (hlib : st.isStreaming = true)
    (hstopcb : st.hasStopCallback = true) (hstartcb : st.hasStartCallback = true) :
    (∀ inputs : List LoopInput, inputs.length = 25 →
       ∃ chunk : List Nat,
         runLoop st inputs = ({ st with app := { st.app with buffer := [] } }, [chunk])
         ∧ chunk.length = 400)
    ∧ (∀ (inputs : List LoopInput) (nowMs nowMs' : Nat), inputs.length = 24 →
       (runLoop st inputs).2 = []
       ∧ (runLoop st inputs).1.app.buffer.length = 24
       ∧ handleMessage (runLoop st inputs).1 ⟨some "stop_stream", none, none⟩ nowMs
           = ({ (runLoop st inputs).1 with
                  isStreaming := false
                  app := application_onStreamStop (runLoop st inputs).1.app },
              [Response.status "ok" "Stream stopped."])
       ∧ (handleMessage
            { (runLoop st inputs).1 with
                isStreaming := false
                app := application_onStreamStop (runLoop st inputs).1.app }
            ⟨some "start_stream", none, none⟩ nowMs').1.app.buffer = []) := by
  constructor
  · intro inputs hlen
    exact runLoop_chunk inputs st hstream hcl (by rw [hbuf, hlen]; simp) (by rw [hbuf]; simp)
  · intro inputs nowMs nowMs' hlen
    have hfill := runLoop_fill inputs st hstream (by rw [hbuf]; simp [hlen])
    refine ⟨by rw [hfill], by rw [hfill]; simp [hbuf, hlen], ?_, ?_⟩
    · show handleStopStream _ = _
      rw [handleStopStream]
      rw [if_pos (show (runLoop st inputs).1.hasStopCallback = true by rw [hfill]; exact hstopcb)]
      rw [if_pos (show (runLoop st inputs).1.isStreaming = true by rw [hfill]; exact hlib)]
      rfl
    · show (handleStartStream _ nowMs').1.app.buffer = _
      rw [handleStartStream]
      rw [if_pos (show ({ (runLoop st inputs).1 with
              isStreaming := false
              app := application_onStreamStop (runLoop st inputs).1.app } :
            SysState).hasStartCallback = true by rw [hfill]; exact hstartcb)]
      rw [if_pos]
      · rfl
      · show ¬(false = true)
        simp

/-- C7 witness: from a concrete streaming demo state, 25 zero-sample
iterations emit one 400-byte chunk; 24 iterations emit none and the
stop/start pair discards and resets the buffer. -/
theorem chunk_emission_witness :
    (∃ chunk : List Nat,
       runLoop
           { demoState with
               isStreaming := true
               app := { buffer := [], streamStartTimeMs := 0, isAppStreaming := true } }
           (List.replicate 25 ⟨0, 0, 0, 0, 0, 0, 0⟩)
         = ({ demoState with
                isStreaming := true
                app := { buffer := [], streamStartTimeMs := 0, isAppStreaming := true } },
            [chunk])
       ∧ chunk.length = 400)
    ∧ (runLoop
         { demoState with
             isStreaming := true
             app := { buffer := [], streamStartTimeMs := 0, isAppStreaming := true } }
         (List.replicate 24 ⟨0, 0, 0, 0, 0, 0, 0⟩)).2 = [] := by
  have h := chunk_emission
    { demoState with
        isStreaming := true
        app := { buffer := [], streamStartTimeMs := 0, isAppStreaming := true } }
    rfl rfl (by decide) rfl rfl rfl
  refine ⟨?_, ?_⟩
  · have h1 := h.1 (List.replicate 25 ⟨0, 0, 0, 0, 0, 0, 0⟩) (by simp)
    simpa using h1
  · exact ((h.2 (List.replicate 24 ⟨0, 0, 0, 0, 0, 0, 0⟩) 0 0 (by simp))).1

/-- C6 witness: the demo state with both callbacks unregistered answers
"not configured" to both commands. -/
theorem no_hooks_not_configured_witness :
    handleMessage { demoState with hasStartCallback := false, hasStopCallback := false }
        ⟨some "start_stream", none, none⟩ 0
      = ({ demoState with hasStartCallback := false, hasStopCallback := false },
         [Response.status "error" "Streaming feature not implemented/configured."])
    ∧ handleMessage { demoState with hasStartCallback := false, hasStopCallback := false }
        ⟨some "stop_stream", none, none⟩ 0
      = ({ demoState with hasStartCallback := false, hasStopCallback := false },
         [Response.status "error" "Streaming feature not implemented/configured."]) :=
  no_hooks_not_configured
    { demoState with hasStartCallback := false, hasStopCallback := false } 0 0 rfl rfl
